import Mathlib

set_option maxHeartbeats 1000000

/-!
Verification of the snapshot import + metrics aggregation pipeline, the
audit recorder, and the project CRUD editor of the dashboard application
(`app/services/snapshot_importer.py`, `app/services/metrics.py`,
`app/services/audit.py`, `app/routers/crud_projects.py`).

Modelling conventions.

* A workbook cell value is `Option String`: `none` models a cell without a
  value (openpyxl yields Python `None`), `some s` models a cell whose Python
  string form `str(v)` is `s`.  Python truthiness of such a value is
  `none ↦ False`, `some s ↦ s ≠ ""`.
* The SQLite database is the `Store` structure: each table is a list of row
  structures, an `INSERT` appends, and `AUTOINCREMENT` key allocation is the
  explicit `next…Id` counters.  Transactions are modelled by state passing:
  within one importer call every statement acts on the working store;
  `conn.rollback()` means the original store is returned, `conn.commit()`
  means the working store is returned.
* Primary-key violations (`sqlite3.IntegrityError` raised by an `INSERT`)
  and any other lower-level fault inside the importer's `try` block are the
  `Except.error` / `.exn` branches of the loop bodies; the surrounding
  `try/except` of the source is the total top level of `import_snapshot`.
  The injected `fault` flag models an arbitrary exception raised at the end
  of the transaction body (e.g. a failing `conn.commit()`).
* Python float ratios are modelled as rationals; `round(x, 4)` is `round4`
  (tie-breaking of Python's float `round` is not modelled; no claim depends
  on it).
-/

/-- Python `str.strip()` on the character list: drop leading and trailing
whitespace. -/
def stripChars (l : List Char) : List Char :=
  ((l.dropWhile Char.isWhitespace).reverse.dropWhile Char.isWhitespace).reverse

/-- Python `str.strip()`. -/
def pyStrip (s : String) : String := String.mk (stripChars s.toList)

/-- Lexicographic comparison of character lists by code point; this is the
order Python string comparison and the SQLite BINARY collation on UTF-8
text both implement. -/
def lexLeChars : List Char → List Char → Bool
  | [], _ => true
  | _ :: _, [] => false
  | a :: as, b :: bs =>
      if a.toNat < b.toNat then true
      else if b.toNat < a.toNat then false
      else lexLeChars as bs

/-- String comparison `a <= b` (Python `sorted` / SQLite `<=` on text). -/
def strLe (a b : String) : Bool := lexLeChars a.toList b.toList

/-- Stable insertion of `a` into `l` in front of the first element not
below it. -/
def insertLe (le : α → α → Bool) (a : α) : List α → List α
  | [] => [a]
  | b :: l => if le a b then a :: b :: l else b :: insertLe le a l

/-- Stable sort by the Boolean comparator `le` (Python `list.sort` /
`sorted` are stable ascending sorts). -/
def sortLe (le : α → α → Bool) : List α → List α
  | [] => []
  | a :: l => insertLe le a (sortLe le l)

/-- A workbook cell: `none` is an empty cell, `some s` a cell whose Python
string form is `s`. -/
abbrev CellVal := Option String

/-- Python truthiness of a cell value (`if v:`). -/
def pyTruthy (v : CellVal) : Bool :=
  match v with
  | none => false
  | some s => s != ""

/-- Python `str(v)` of a cell value; only ever applied under a truthiness
guard in the source, so the `none` case is immaterial. -/
def pyStr (v : CellVal) : String := v.getD ""

/-- Python `v or d` for a cell value and a string default. -/
def pyOr (v : CellVal) (d : String) : String :=
  if pyTruthy v then pyStr v else d

/-- Row of the `snapshots` table. -/
structure SnapshotRow where
  snapshot_id : Nat
  snapshot_date : String
  uploaded_at : String
  source_filename : String
deriving DecidableEq

/-- Row of the `champions` table (`is_active` defaults to 1). -/
structure ChampionRow where
  champion_id : Nat
  name : String
  is_active : Bool
deriving DecidableEq

/-- Row of the `strategy_categories` table. -/
structure StrategyRow where
  strategy_id : Nat
  name : String
  is_active : Bool
deriving DecidableEq

/-- Row of the `projects` table. -/
structure ProjectRow where
  snapshot_id : Nat
  project_id : String
  project_name : String
  champion_id : Option Nat
  strategy_id : Option Nat
  org_unit : Option String
  current_status : String
  proposed_month : Option String
  approved_month : Option String
deriving DecidableEq

/-- Row of the `project_monthly_events` table; the 0/1 flag columns are
modelled as `Bool`. -/
structure EventRow where
  snapshot_id : Nat
  month_key : String
  project_id : String
  champion_id : Option Nat
  is_new_proposal : Bool
  is_approved : Bool
  note : Option String
deriving DecidableEq

/-- Row of the `audit_logs` table (`audit_id` and the server-defaulted
`acted_at` timestamp are omitted; no claim mentions them). -/
structure AuditRow where
  snapshot_id : Nat
  entity_type : String
  entity_key : String
  action : String
  changed_fields : Option String
  before_json : Option String
  after_json : Option String
  actor : String
deriving DecidableEq

/-- The SQLite database of `app/db.py`: six tables plus the AUTOINCREMENT
counters of the three surrogate keys. -/
structure Store where
  snapshots : List SnapshotRow
  champions : List ChampionRow
  strategy_categories : List StrategyRow
  projects : List ProjectRow
  project_monthly_events : List EventRow
  audit_logs : List AuditRow
  nextSnapshotId : Nat
  nextChampionId : Nat
  nextStrategyId : Nat
deriving DecidableEq

/-- `get_champion_id` of `snapshot_importer.py` (lines 120-131): get-or-create
a champion by exact trimmed name, `None` for falsy or whitespace-only names.
The `SELECT` and the `INSERT` act on the same uncommitted transaction, hence
directly on the working store. -/
def get_champion_id (name : String) (s : Store) : Option Nat × Store :=
  if name == "" then (none, s) else
  let name := pyStrip name
  if name == "" then (none, s) else
  match s.champions.find? (fun ch => ch.name == name) with
  | some ch => (some ch.champion_id, s)
  | none =>
      (some s.nextChampionId,
        { s with
            champions := s.champions ++ [⟨s.nextChampionId, name, true⟩],
            nextChampionId := s.nextChampionId + 1 })

/-- `get_strategy_id` of `snapshot_importer.py` (lines 133-144), same
get-or-create semantics as `get_champion_id`. -/
def get_strategy_id (name : String) (s : Store) : Option Nat × Store :=
  if name == "" then (none, s) else
  let name := pyStrip name
  if name == "" then (none, s) else
  match s.strategy_categories.find? (fun c => c.name == name) with
  | some c => (some c.strategy_id, s)
  | none =>
      (some s.nextStrategyId,
        { s with
            strategy_categories := s.strategy_categories ++ [⟨s.nextStrategyId, name, true⟩],
            nextStrategyId := s.nextStrategyId + 1 })

/-- Boolean coercion of an event-sheet flag cell, `snapshot_importer.py`
lines 243-250: `val is not None and str(val).strip() != "0"`. -/
def eventFlag (val : CellVal) : Bool :=
  match val with
  | none => false
  | some s => pyStrip s != "0"

/-- Abstract stand-in for `json.dumps` on a field mapping; the audit claims
depend only on the serialization being applied to each mapping
independently, not on the JSON syntax itself. -/
def serializeJson (d : List (String × String)) : String :=
  String.intercalate "," (d.map (fun kv => kv.1 ++ ":" ++ kv.2))

/-- The `changed_fields` computation of `record_audit`: starts as `None`
and becomes `','.join(sorted(before_keys.union(after_keys)))` only when
both mappings are given. -/
def changedFieldsOf (before after : Option (List (String × String))) : Option String :=
  match before, after with
  | some b, some a =>
      some (String.intercalate ","
        (sortLe strLe ((b.map Prod.fst ++ a.map Prod.fst).dedup)))
  | _, _ => none

/-- The parameter tuple of `record_audit`'s `INSERT INTO audit_logs`. -/
def auditRowOf (snapshot_id : Nat) (entity_type entity_key action : String)
    (before after : Option (List (String × String))) (actor : String) : AuditRow :=
  { snapshot_id := snapshot_id
    entity_type := entity_type
    entity_key := entity_key
    action := action
    changed_fields := changedFieldsOf before after
    before_json := before.map serializeJson
    after_json := after.map serializeJson
    actor := actor }

/-- `record_audit` of `app/services/audit.py`: appends one `audit_logs` row
and commits, so the returned store is the committed store. -/
def record_audit (s : Store) (snapshot_id : Nat) (entity_type entity_key action : String)
    (before after : Option (List (String × String))) (actor : String) : Store :=
  { s with
      audit_logs := s.audit_logs ++
        [auditRowOf snapshot_id entity_type entity_key action before after actor] }

/-- The `FILENAME_PATTERN` check of the importer: the file name must match
`^(\d{4})-(\d{2})-(\d{2})\.xlsx$` exactly; on success the snapshot date
`"YYYY-MM-DD"` is rebuilt from the three groups. -/
def snapshotDateOf (filename : String) : Option String :=
  match filename.toList with
  | [y1, y2, y3, y4, h1, m1, m2, h2, d1, d2, dot, x1, x2, x3, x4] =>
      if ([y1, y2, y3, y4, m1, m2, d1, d2].all Char.isDigit
          && h1 == '-' && h2 == '-' && dot == '.'
          && x1 == 'x' && x2 == 'l' && x3 == 's' && x4 == 'x')
      then some (String.mk [y1, y2, y3, y4, '-', m1, m2, '-', d1, d2])
      else none
  | _ => none

/-- The `MONTH_SHEET_PATTERN` check: sheet name matches `^\d{4}-\d{2}$`. -/
def isMonthSheetName (nm : String) : Bool :=
  match nm.toList with
  | [y1, y2, y3, y4, h, m1, m2] => [y1, y2, y3, y4, m1, m2].all Char.isDigit && h == '-'
  | _ => false

/-- Index of the column carrying `label`, as built by the
`for idx, header in enumerate(headers)` loops: a later occurrence of the
same label overwrites an earlier one. -/
def headerIndexOf (headers : List CellVal) (label : String) : Option Nat :=
  (List.range headers.length).foldl
    (fun acc i => if headers.getD i none == some label then some i else acc) none

/-- Column positions of the eight required `AX_Master` header labels. -/
structure MasterIdx where
  project_id : Nat
  project_name : Nat
  champion : Nat
  strategy : Nat
  org_unit : Nat
  status : Nat
  proposed_month : Nat
  approved_month : Nat
deriving DecidableEq

/-- The `expected_master_cols` labels in dict order. -/
def masterHeaderLabels : List String :=
  ["과제ID", "과제명", "Champion", "전략분류", "수행 부서", "심의상태", "제안월", "승인월"]

/-- The labels of `expected_master_cols` absent from the header row, in dict
order (used in the `MissingColumns` message). -/
def missingMasterLabels (headers : List CellVal) : List String :=
  masterHeaderLabels.filter (fun l => headerIndexOf headers l == none)

/-- `header_index` for the master sheet: `some` exactly when all eight
required labels are present. -/
def masterIdxOf (headers : List CellVal) : Option MasterIdx := do
  let pid ← headerIndexOf headers "과제ID"
  let pname ← headerIndexOf headers "과제명"
  let champ ← headerIndexOf headers "Champion"
  let strat ← headerIndexOf headers "전략분류"
  let org ← headerIndexOf headers "수행 부서"
  let status ← headerIndexOf headers "심의상태"
  let pm ← headerIndexOf headers "제안월"
  let am ← headerIndexOf headers "승인월"
  pure ⟨pid, pname, champ, strat, org, status, pm, am⟩

/-- Column positions of the five required event-sheet header labels. -/
structure EventIdx where
  project_id : Nat
  champion : Nat
  is_new_proposal : Nat
  is_approved : Nat
  note : Nat
deriving DecidableEq

/-- `event_index` for a month sheet: `some` exactly when all five required
labels (`과제ID`, `Champion`, `신규제안여부`, `승인여부`, `비고`) are present. -/
def eventIdxOf (headers : List CellVal) : Option EventIdx := do
  let pid ← headerIndexOf headers "과제ID"
  let champ ← headerIndexOf headers "Champion"
  let np ← headerIndexOf headers "신규제안여부"
  let ap ← headerIndexOf headers "승인여부"
  let note ← headerIndexOf headers "비고"
  pure ⟨pid, champ, np, ap, note⟩

/-- One worksheet: the header row (`min_row=1`) and the data rows
(`min_row=2`).  openpyxl pads every row to the sheet width, hence reading a
cell beyond a row's end yields an empty cell (`List.getD _ none`). -/
structure Sheet where
  name : String
  header : List CellVal
  rows : List (List CellVal)
deriving DecidableEq

/-- A loaded workbook: the sheets in `wb.sheetnames` order.  Worksheet names
are unique within an xlsx workbook. -/
structure Workbook where
  sheets : List Sheet
deriving DecidableEq

/-- Diagnostic state carried by an exception escaping to the importer's
`except` clause: the warnings and processed counts at raise time. -/
structure ExnInfo where
  warnings : List String
  processed_projects : Nat
  processed_events : Nat
deriving DecidableEq

/-- The `AX_Master` data-row loop (importer lines 146-181).  Empty rows are
skipped, a falsy project id is a skipped warning, champions and strategies
are resolved or created lazily, a blank status cell defaults to `"제안"`,
and the new project row is inserted.  An `INSERT` violating the
`(snapshot_id, project_id)` primary key raises (`Except.error`). -/
def processMasterRows (idx : MasterIdx) (sid : Nat) (rows : List (List CellVal))
    (s : Store) (warnings : List String) (count : Nat) :
    Except ExnInfo (Store × List String × Nat) :=
  match rows with
  | [] => .ok (s, warnings, count)
  | row :: rest =>
    if row.all (fun c => c == none) then
      processMasterRows idx sid rest s warnings count
    else
    let project_id := row.getD idx.project_id none
    if !pyTruthy project_id then
      processMasterRows idx sid rest s
        (warnings ++ ["Blank project_id in AX_Master; row skipped"]) count
    else
    let project_name := pyOr (row.getD idx.project_name none) ""
    let champion_name := row.getD idx.champion none
    let strategy_name := row.getD idx.strategy none
    let org_unit := row.getD idx.org_unit none
    let status := pyOr (row.getD idx.status none) "제안"
    let proposed_month := row.getD idx.proposed_month none
    let approved_month := row.getD idx.approved_month none
    let champRes := if pyTruthy champion_name then get_champion_id (pyStr champion_name) s else (none, s)
    let stratRes := if pyTruthy strategy_name then get_strategy_id (pyStr strategy_name) champRes.2 else (none, champRes.2)
    let s2 := stratRes.2
    if s2.projects.any (fun p => p.snapshot_id == sid && p.project_id == pyStr project_id) then
      .error ⟨warnings, count, 0⟩
    else
      processMasterRows idx sid rest
        { s2 with projects := s2.projects ++ [{
            snapshot_id := sid
            project_id := pyStr project_id
            project_name := project_name
            champion_id := champRes.1
            strategy_id := stratRes.1
            org_unit := if pyTruthy org_unit then some (pyStr org_unit) else none
            current_status := status
            proposed_month := if pyTruthy proposed_month then some (pyStr proposed_month) else none
            approved_month := if pyTruthy approved_month then some (pyStr approved_month) else none }] }
        warnings (count + 1)

/-- Outcome of the monthly-sheet phase: normal completion, an early
`return` of a failure report after `conn.rollback()` (the report fields are
carried, the store is not — the caller resumes from the pre-transaction
store), or an exception escaping to the `except` clause. -/
inductive ImportStep where
  | ok (s : Store) (warnings : List String) (events : Nat)
  | fail (message : String) (tag : String) (warnings : List String) (events : Nat)
  | exn (info : ExnInfo)
deriving DecidableEq

/-- The event data-row loop of one month sheet (importer lines 215-268).
Empty rows are skipped, a falsy project id is a skipped warning, a project
id unknown in this snapshot's master rows is a fatal rollback, the champion
falls back to the project's champion when the cell is blank, and the two
flags go through the boolean coercion.  An `INSERT` violating the
`(snapshot_id, month_key, project_id)` primary key raises (`.exn`). -/
def processEventRows (idx : EventIdx) (sid : Nat) (month_key sheet_name : String)
    (nProj : Nat) (rows : List (List CellVal)) (s : Store) (warnings : List String)
    (count : Nat) : ImportStep :=
  match rows with
  | [] => .ok s warnings count
  | row :: rest =>
    if row.all (fun c => c == none) then
      processEventRows idx sid month_key sheet_name nProj rest s warnings count
    else
    let p_id := row.getD idx.project_id none
    if !pyTruthy p_id then
      processEventRows idx sid month_key sheet_name nProj rest s
        (warnings ++ ["Blank project_id in " ++ sheet_name ++ "; row skipped"]) count
    else
    if !(s.projects.any (fun p => p.snapshot_id == sid && p.project_id == pyStr p_id)) then
      .fail ("Project ID " ++ pyStr p_id ++ " in sheet " ++ sheet_name ++ " not found in AX_Master.")
            ("Unknown project_id " ++ pyStr p_id) warnings count
    else
    let champ_name := row.getD idx.champion none
    let champRes :=
      if pyTruthy champ_name && pyStrip (pyStr champ_name) != "" then
        get_champion_id (pyStr champ_name) s
      else
        ((match s.projects.find? (fun p => p.snapshot_id == sid && p.project_id == pyStr p_id) with
          | some p => p.champion_id
          | none => none), s)
    let is_new := eventFlag (row.getD idx.is_new_proposal none)
    let is_approved := eventFlag (row.getD idx.is_approved none)
    let note := row.getD idx.note none
    if champRes.2.project_monthly_events.any
        (fun e => e.snapshot_id == sid && e.month_key == month_key && e.project_id == pyStr p_id) then
      .exn ⟨warnings, nProj, count⟩
    else
      processEventRows idx sid month_key sheet_name nProj rest
        { champRes.2 with project_monthly_events := champRes.2.project_monthly_events ++ [{
            snapshot_id := sid
            month_key := month_key
            project_id := pyStr p_id
            champion_id := champRes.1
            is_new_proposal := is_new
            is_approved := is_approved
            note := if pyTruthy note then some (pyStr note) else none }] }
        warnings (count + 1)

/-- The loop over `wb.sheetnames` (importer lines 183-268): `AX_Master` is
skipped, a name not matching `YYYY-MM` is a warning, a month sheet missing
a required event column is a fatal rollback, otherwise its rows are
processed. -/
def processSheets (sid : Nat) (nProj : Nat) (sheets : List Sheet) (s : Store)
    (warnings : List String) (count : Nat) : ImportStep :=
  match sheets with
  | [] => .ok s warnings count
  | sheet :: rest =>
    if sheet.name == "AX_Master" then
      processSheets sid nProj rest s warnings count
    else if !isMonthSheetName sheet.name then
      processSheets sid nProj rest s
        (warnings ++ ["Sheet " ++ sheet.name ++ " ignored due to invalid name"]) count
    else
      match eventIdxOf sheet.header with
      | none =>
          .fail ("Missing required columns in sheet " ++ sheet.name ++ ":")
                "Missing event columns" warnings count
      | some eidx =>
          match processEventRows eidx sid sheet.name sheet.name nProj sheet.rows s warnings count with
          | .ok s1 w1 c1 => processSheets sid nProj rest s1 w1 c1
          | other => other

/-- The `INSERT INTO snapshots` statement: the new snapshot row under the
fresh AUTOINCREMENT id. -/
def snapshotInsert (s : Store) (snapshot_date uploaded_at filename : String) : Store :=
  { s with
      snapshots := s.snapshots ++ [⟨s.nextSnapshotId, snapshot_date, uploaded_at, filename⟩],
      nextSnapshotId := s.nextSnapshotId + 1 }

/-- The import report value (`SnapshotReport` of `app/schemas.py`). -/
structure SnapshotReport where
  success : Bool
  message : String
  processed_projects : Nat
  processed_events : Nat
  warnings : List String
  errors : List String
deriving DecidableEq

/-- The transaction body of `import_snapshot` after the duplicate check:
insert the snapshot row, process the master rows, process the monthly
sheets, commit on success.  Every fatal branch (early `return` after
`conn.rollback()` or an exception caught by the catch-all) yields the
original store `s`; only the final branch returns the written store. -/
def importTransaction (midx : MasterIdx) (master : Sheet) (sheets : List Sheet)
    (filename snapshot_date uploaded_at : String) (fault : Bool) (s : Store) :
    SnapshotReport × Store :=
  match processMasterRows midx s.nextSnapshotId master.rows
      (snapshotInsert s snapshot_date uploaded_at filename) [] 0 with
  | .error info =>
      (⟨false, "Error during import", info.processed_projects, info.processed_events,
        info.warnings, ["Unhandled exception during import"]⟩, s)
  | .ok (s1, w1, nProj) =>
    match processSheets s.nextSnapshotId nProj sheets s1 w1 0 with
    | .fail msg tag w2 nEv =>
        (⟨false, msg, nProj, nEv, w2, [tag]⟩, s)
    | .exn info =>
        (⟨false, "Error during import", info.processed_projects, info.processed_events,
          info.warnings, ["Unhandled exception during import"]⟩, s)
    | .ok s2 w2 nEv =>
        if fault then
          (⟨false, "Error during import", nProj, nEv, w2,
            ["Unhandled exception during import"]⟩, s)
        else
          (⟨true, "Snapshot imported successfully.", nProj, nEv, w2, []⟩, s2)

/-- `import_snapshot` of `app/services/snapshot_importer.py`: validates the
filename, the loaded workbook (`wb = none` models a `load_workbook`
failure), the master sheet and its header, rejects a duplicate snapshot
date, then runs the whole write sequence as one transaction.  Every fatal
path after the transaction begins returns the original store (rollback);
only the final success path returns the written store (commit).  `fault`
injects an arbitrary lower-level exception at the end of the transaction
body, landing in the catch-all `except` clause. -/
def import_snapshot (filename : String) (wb : Option Workbook) (uploaded_at : String)
    (fault : Bool) (s : Store) : SnapshotReport × Store :=
  match snapshotDateOf filename with
  | none =>
      (⟨false, "Invalid filename format. Must be YYYY-MM-DD.xlsx", 0, 0, [],
        ["Filename does not match pattern"]⟩, s)
  | some snapshot_date =>
    match wb with
    | none =>
        (⟨false, "Failed to load workbook", 0, 0, [], ["Workbook load error"]⟩, s)
    | some wb =>
      match wb.sheets.find? (fun sh => sh.name == "AX_Master") with
      | none => (⟨false, "AX_Master sheet is missing.", 0, 0, [], ["AX_Master missing"]⟩, s)
      | some master =>
        match masterIdxOf master.header with
        | none =>
            (⟨false, "Missing required columns in AX_Master: " ++
              String.intercalate ", " (missingMasterLabels master.header),
              0, 0, [], ["Missing columns"]⟩, s)
        | some midx =>
          if s.snapshots.any (fun r => r.snapshot_date == snapshot_date) then
            (⟨false, "Snapshot for this date already exists.", 0, 0, [],
              ["Duplicate snapshot date"]⟩, s)
          else
            importTransaction midx master wb.sheets filename snapshot_date uploaded_at fault s

/-- `get_snapshot_months` of `app/services/metrics.py`: the distinct month
keys of the snapshot's events, sorted ascending (SQLite `DISTINCT` followed
by Python `list.sort`). -/
def get_snapshot_months (s : Store) (snapshot_id : Nat) : List String :=
  sortLe strLe (((s.project_monthly_events.filter (fun e => e.snapshot_id == snapshot_id)).map
      (fun e => e.month_key)).dedup)

/-- The month-proposal count query of `compute_kpis`:
`COUNT(*) WHERE snapshot_id = ? AND month_key = ? AND is_new_proposal = 1`. -/
def countMonthProposals (s : Store) (sid : Nat) (month : String) : Nat :=
  (s.project_monthly_events.filter (fun e =>
    e.snapshot_id == sid && e.month_key == month && e.is_new_proposal)).length

/-- The month-approval count query of `compute_kpis`. -/
def countMonthApprovals (s : Store) (sid : Nat) (month : String) : Nat :=
  (s.project_monthly_events.filter (fun e =>
    e.snapshot_id == sid && e.month_key == month && e.is_approved)).length

/-- The cumulative-approved query of `compute_kpis`:
`COUNT(DISTINCT project_id) WHERE month_key <= ? AND is_approved = 1`. -/
def countCumulativeApproved (s : Store) (sid : Nat) (month : String) : Nat :=
  (((s.project_monthly_events.filter (fun e =>
      e.snapshot_id == sid && strLe e.month_key month && e.is_approved)).map
      (fun e => e.project_id)).dedup).length

/-- The active-champion query of `compute_kpis`:
`COUNT(DISTINCT champion_id)` over this month's proposal-or-approval events;
SQL `COUNT(DISTINCT col)` ignores NULLs, hence the `filterMap`. -/
def countActiveChampions (s : Store) (sid : Nat) (month : String) : Nat :=
  (((s.project_monthly_events.filter (fun e =>
      e.snapshot_id == sid && e.month_key == month && (e.is_new_proposal || e.is_approved))).filterMap
      (fun e => e.champion_id)).dedup).length

/-- The total-champion query of `compute_kpis`:
`COUNT(DISTINCT champion_id) FROM projects WHERE snapshot_id = ?`. -/
def countTotalChampions (s : Store) (sid : Nat) : Nat :=
  (((s.projects.filter (fun p => p.snapshot_id == sid)).filterMap
      (fun p => p.champion_id)).dedup).length

/-- Python `round(x, 4)`. -/
def round4 (q : ℚ) : ℚ := ((round (q * 10000) : ℤ) : ℚ) / 10000

/-- The previous-month selection of `compute_kpis` (lines 170-175):
`months.index(month) - 1` when the selected month occurs in the snapshot's
month list at a positive index, else no previous month. -/
def prevMonthOf (months : List String) (month : String) : Option String :=
  match months.indexOf? month with
  | some (i + 1) => months[i]?
  | _ => none

/-- The previous-month cumulative-approved count used by `compute_kpis`
(0 when there is no previous month). -/
def prevCumulativeOf (s : Store) (sid : Nat) (month : String) : Nat :=
  match prevMonthOf (get_snapshot_months s sid) month with
  | some pm => countCumulativeApproved s sid pm
  | none => 0

/-- The KPI dict returned by `compute_kpis`. -/
structure KPIs where
  month_proposals : Nat
  month_approvals : Nat
  cumulative_approved : Nat
  champion_participation_rate : ℚ
  expansion_rate : ℚ
  proposal_inflow_rate : ℚ
  prev_month : Option String
  prev_cumulative_approved : Nat
deriving DecidableEq

/-- `compute_kpis` of `app/services/metrics.py` (lines 102-205). -/
def compute_kpis (s : Store) (snapshot_id : Nat) (month : String) : KPIs :=
  let month_proposals := countMonthProposals s snapshot_id month
  let month_approvals := countMonthApprovals s snapshot_id month
  let cumulative_approved := countCumulativeApproved s snapshot_id month
  let active_champions := countActiveChampions s snapshot_id month
  let total_champions := countTotalChampions s snapshot_id
  let participation_rate : ℚ :=
    if total_champions = 0 then 0 else (active_champions : ℚ) / (total_champions : ℚ)
  let prev_month := prevMonthOf (get_snapshot_months s snapshot_id) month
  let prev_cumulative : Nat := prevCumulativeOf s snapshot_id month
  let expansion_rate : ℚ :=
    if prev_cumulative = 0 then 0 else (cumulative_approved : ℚ) / (prev_cumulative : ℚ)
  let proposal_inflow_rate : ℚ :=
    if month_approvals = 0 then 0 else (month_proposals : ℚ) / (month_approvals : ℚ)
  ⟨month_proposals, month_approvals, cumulative_approved,
    round4 participation_rate, round4 expansion_rate, round4 proposal_inflow_rate,
    prev_month, prev_cumulative⟩

/-- A proposal-approval-active triple of `compute_distribution`. -/
abbrev StratTriple := Nat × Nat × Nat

/-- Python `distribution[k][field] = v` on the strategy dict: every entry
with key `k` gets its field replaced.  (When `k` is not a key the source
raises `KeyError`; the claims are stated under referential integrity, where
every group key is a dict key and this case cannot arise.) -/
def dictSet (d : List (Option Nat × StratTriple)) (k : Option Nat)
    (f : StratTriple → StratTriple) : List (Option Nat × StratTriple) :=
  d.map (fun kv => if kv.1 == k then (kv.1, f kv.2) else kv)

/-- A SQL `GROUP BY key` with `COUNT(*)` over a key multiset: one pair per
distinct key with its multiplicity. -/
def groupCounts (keys : List (Option Nat)) : List (Option Nat × Nat) :=
  keys.dedup.map (fun k => (k, keys.count k))

/-- Key multiset of the proposals query of `compute_distribution`: the
strategy ids of `events JOIN projects` rows with `is_new_proposal = 1`,
scoped to snapshot and month. -/
def proposalStrategyKeys (s : Store) (sid : Nat) (month : String) : List (Option Nat) :=
  (s.project_monthly_events.filter (fun e =>
      e.snapshot_id == sid && e.month_key == month && e.is_new_proposal)).flatMap
    (fun e => (s.projects.filter (fun p =>
        p.snapshot_id == e.snapshot_id && p.project_id == e.project_id)).map
      (fun p => p.strategy_id))

/-- Key multiset of the approvals query of `compute_distribution`. -/
def approvalStrategyKeys (s : Store) (sid : Nat) (month : String) : List (Option Nat) :=
  (s.project_monthly_events.filter (fun e =>
      e.snapshot_id == sid && e.month_key == month && e.is_approved)).flatMap
    (fun e => (s.projects.filter (fun p =>
        p.snapshot_id == e.snapshot_id && p.project_id == e.project_id)).map
      (fun p => p.strategy_id))

/-- Key multiset of the active query of `compute_distribution` (and of
`compute_active_by_strategy`): strategy ids of this snapshot's projects
whose status is the active literal. -/
def activeStrategyKeys (s : Store) (sid : Nat) : List (Option Nat) :=
  (s.projects.filter (fun p =>
      p.snapshot_id == sid && p.current_status == "승인(진행중)")).map
    (fun p => p.strategy_id)

/-- Field setter for the proposals fill-in loop. -/
def setProposals (c : Nat) (t : StratTriple) : StratTriple := (c, t.2.1, t.2.2)

/-- Field setter for the approvals fill-in loop. -/
def setApprovals (c : Nat) (t : StratTriple) : StratTriple := (t.1, c, t.2.2)

/-- Field setter for the active fill-in loop. -/
def setActive (c : Nat) (t : StratTriple) : StratTriple := (t.1, t.2.1, c)

/-- `compute_distribution` of `app/services/metrics.py` (lines 263-321):
build the strategy dict (all categories plus the `None` sentinel) with zero
triples, fill in the three grouped counts, emit `(name, proposals,
approvals, active)` per dict entry, and sort by category name ascending. -/
def compute_distribution (s : Store) (snapshot_id : Nat) (month : String) :
    List (String × Nat × Nat × Nat) :=
  let strat_map : List (Option Nat × String) :=
    (s.strategy_categories.map (fun c => (some c.strategy_id, c.name))) ++ [(none, "(미할당)")]
  let dist0 : List (Option Nat × StratTriple) := strat_map.map (fun kv => (kv.1, (0, 0, 0)))
  let d1 := (groupCounts (proposalStrategyKeys s snapshot_id month)).foldl
      (fun d kc => dictSet d kc.1 (setProposals kc.2)) dist0
  let d2 := (groupCounts (approvalStrategyKeys s snapshot_id month)).foldl
      (fun d kc => dictSet d kc.1 (setApprovals kc.2)) d1
  let d3 := (groupCounts (activeStrategyKeys s snapshot_id)).foldl
      (fun d kc => dictSet d kc.1 (setActive kc.2)) d2
  let result := d3.map (fun kv =>
      ((strat_map.lookup kv.1).getD "(미할당)", kv.2.1, kv.2.2.1, kv.2.2.2))
  sortLe (fun a b => strLe a.1 b.1) result

/-- Serialization of an `Option Nat` column for the audit dict. -/
def optNatStr (v : Option Nat) : String :=
  match v with
  | some x => toString x
  | none => "null"

/-- Serialization of an `Option String` column for the audit dict. -/
def optStrStr (v : Option String) : String :=
  match v with
  | some x => x
  | none => "null"

/-- The seven-field row dict fetched by `update_project`'s before/after
`SELECT`s and passed to `record_audit`. -/
def projectAuditDict (p : ProjectRow) : List (String × String) :=
  [("project_name", p.project_name), ("champion_id", optNatStr p.champion_id),
   ("strategy_id", optNatStr p.strategy_id), ("org_unit", optStrStr p.org_unit),
   ("current_status", p.current_status), ("proposed_month", optStrStr p.proposed_month),
   ("approved_month", optStrStr p.approved_month)]

/-- The `UPDATE projects SET ... WHERE snapshot_id = ? AND project_id = ?`
statement of `update_project`. -/
def applyProjectUpdate (s : Store) (snapshot_id : Nat) (project_id : String)
    (project_name : String) (champ_id strat_id : Option Nat) (org_unit : Option String)
    (current_status : String) (proposed_month approved_month : Option String) : Store :=
  { s with projects := s.projects.map (fun p =>
      if p.snapshot_id == snapshot_id && p.project_id == project_id then
        { p with
            project_name := project_name
            champion_id := champ_id
            strategy_id := strat_id
            org_unit := org_unit
            current_status := current_status
            proposed_month := proposed_month
            approved_month := approved_month }
      else p) }

/-- The `champion_id if champion_id not in (None, 0, '0', '') else None`
normalisation of `update_project`; the parameter is `int | None`, so only
`None` and `0` can match. -/
def normalizeRefId (v : Option Nat) : Option Nat :=
  if v == none || v == some 0 then none else v

/-- Outcome of one `update_project` request.  `notFound` is the 404 raised
before any write; `auditFailed` models an exception inside `record_audit`
after the project `UPDATE` was already committed (`committed` is the store
durable at that point — no audit row); `ok` carries the store committed
before the redirect response is produced. -/
inductive UpdateOutcome where
  | notFound
  | auditFailed (committed : Store)
  | ok (committed : Store) (redirect : String)
deriving DecidableEq

/-- `update_project` of `app/routers/crud_projects.py` (lines 93-139): fetch
the before-row, 404 when absent, normalise the reference ids, `UPDATE` and
`conn.commit()`, fetch the after-row, then `record_audit` (which commits
separately).  `auditOk = false` injects a failure of the audit write after
the first commit. -/
def update_project (s : Store) (snapshot_id : Nat) (project_id : String)
    (project_name : String) (champion_id strategy_id : Option Nat)
    (org_unit : Option String) (current_status : String)
    (proposed_month approved_month : Option String) (auditOk : Bool) : UpdateOutcome :=
  match s.projects.find? (fun p => p.snapshot_id == snapshot_id && p.project_id == project_id) with
  | none => .notFound
  | some before =>
    let s1 := applyProjectUpdate s snapshot_id project_id project_name
        (normalizeRefId champion_id) (normalizeRefId strategy_id)
        org_unit current_status proposed_month approved_month
    let after := (s1.projects.find?
        (fun p => p.snapshot_id == snapshot_id && p.project_id == project_id)).getD before
    if auditOk then
      .ok (record_audit s1 snapshot_id "project" project_id "UPDATE"
            (some (projectAuditDict before)) (some (projectAuditDict after)) "admin")
          ("/admin/projects?snapshot_id=" ++ toString snapshot_id)
    else
      .auditFailed s1

/-- A freshly initialised database (`init_db` creates the six empty tables;
SQLite AUTOINCREMENT keys start at 1). -/
def emptyStore : Store := ⟨[], [], [], [], [], [], 1, 1, 1⟩

/-- A complete `AX_Master` header row. -/
def masterHeaderFix : List CellVal :=
  [some "과제ID", some "과제명", some "Champion", some "전략분류",
   some "수행 부서", some "심의상태", some "제안월", some "승인월"]

/-- A complete month-sheet header row. -/
def eventHeaderFix : List CellVal :=
  [some "과제ID", some "Champion", some "신규제안여부", some "승인여부", some "비고"]

/-- Workbook whose month sheet references project `P2`, absent from
`AX_Master`: triggers the fatal `UnknownProjectReference` rollback. -/
def wbUnknownRef : Workbook :=
  ⟨[⟨"AX_Master", masterHeaderFix,
      [[some "P1", some "프로젝트1", some "Alice", some "전략A", none, none, none, none]]⟩,
    ⟨"2025-01", eventHeaderFix,
      [[some "P2", none, some "1", some "0", none]]⟩]⟩

/-- Well-formed single-project workbook (blank status cell, one event row
for `P1`): imports successfully. -/
def wbGood : Workbook :=
  ⟨[⟨"AX_Master", masterHeaderFix,
      [[some "P1", some "프로젝트1", some "Alice", some "전략A", none, none, none, none]]⟩,
    ⟨"2025-01", eventHeaderFix,
      [[some "P1", none, some "1", some "0", none]]⟩]⟩

/-- Store already holding a snapshot dated `2025-01-01` (for the duplicate
check) with one champion and one strategy row. -/
def storeWithSnapshot : Store :=
  ⟨[⟨1, "2025-01-01", "t0", "2025-01-01.xlsx"⟩],
   [⟨1, "Alice", true⟩], [⟨1, "전략A", true⟩], [], [], [], 2, 2, 2⟩

/-- Store with one project row (snapshot 1, project `P1`). -/
def storeOneProject : Store :=
  ⟨[⟨1, "2025-01-01", "t0", "2025-01-01.xlsx"⟩], [], [],
   [⟨1, "P1", "프로젝트1", none, none, none, "제안", none, none⟩], [], [], 2, 1, 1⟩

/-- Store with one strategy category and no projects or events. -/
def storeOneStrategy : Store :=
  ⟨[], [], [⟨1, "전략A", true⟩], [], [], [], 1, 1, 2⟩

/-- Store with a single proposal-only event in month `2025-01`. -/
def storeOneEvent : Store :=
  ⟨[⟨1, "2025-01-01", "t0", "2025-01-01.xlsx"⟩], [], [],
   [⟨1, "P1", "프로젝트1", none, none, none, "제안", none, none⟩],
   [⟨1, "2025-01", "P1", none, true, false, none⟩], [], 2, 1, 1⟩

/-- The store durably committed when an `update_project` call returns
(`none` for the 404 path, which writes nothing). -/
def outcomeStore (o : UpdateOutcome) : Option Store :=
  match o with
  | .notFound => none
  | .auditFailed s => some s
  | .ok s _ => some s

theorem pyStrip_empty : pyStrip "" = "" := by decide

theorem get_champion_id_of_strip_ne (name : String) (s : Store) (h : pyStrip name ≠ "") :
    get_champion_id name s =
      (match s.champions.find? (fun ch => ch.name == pyStrip name) with
       | some ch => (some ch.champion_id, s)
       | none =>
           (some s.nextChampionId,
             { s with
                 champions := s.champions ++ [⟨s.nextChampionId, pyStrip name, true⟩],
                 nextChampionId := s.nextChampionId + 1 })) := by
  have hne : name ≠ "" := by
    intro h0
    exact h (by rw [h0]; decide)
  unfold get_champion_id
  rw [if_neg (by simpa using hne), if_neg (by simpa using h)]

theorem get_strategy_id_of_strip_ne (name : String) (s : Store) (h : pyStrip name ≠ "") :
    get_strategy_id name s =
      (match s.strategy_categories.find? (fun c => c.name == pyStrip name) with
       | some c => (some c.strategy_id, s)
       | none =>
           (some s.nextStrategyId,
             { s with
                 strategy_categories := s.strategy_categories ++ [⟨s.nextStrategyId, pyStrip name, true⟩],
                 nextStrategyId := s.nextStrategyId + 1 })) := by
  have hne : name ≠ "" := by
    intro h0
    exact h (by rw [h0]; decide)
  unfold get_strategy_id
  rw [if_neg (by simpa using hne), if_neg (by simpa using h)]

theorem get_champion_id_of_strip_eq (name : String) (s : Store) (h : pyStrip name = "") :
    get_champion_id name s = (none, s) := by
  unfold get_champion_id
  by_cases h0 : name = ""
  · rw [if_pos (by simpa using h0)]
  · rw [if_neg (by simpa using h0), if_pos (by simpa using h)]

theorem get_strategy_id_of_strip_eq (name : String) (s : Store) (h : pyStrip name = "") :
    get_strategy_id name s = (none, s) := by
  unfold get_strategy_id
  by_cases h0 : name = ""
  · rw [if_pos (by simpa using h0)]
  · rw [if_neg (by simpa using h0), if_pos (by simpa using h)]

/-- C2: an event-sheet flag cell is imported as true exactly when the cell
is non-empty and its string form, stripped, differs from `"0"`; in
particular `"0"` (also padded with whitespace) and the empty cell yield
false, while `"1"`, `"Y"`, or any other non-empty non-`"0"` text yields
true. -/
theorem event_flag_bool_coercion :
    (∀ v : CellVal, eventFlag v = true ↔ (v ≠ none ∧ pyStrip (pyStr v) ≠ "0"))
    ∧ eventFlag none = false
    ∧ eventFlag (some "0") = false
    ∧ eventFlag (some " 0 ") = false
    ∧ eventFlag (some "1") = true
    ∧ eventFlag (some "Y") = true := by
  refine ⟨?_, by decide, by decide, by decide, by decide, by decide⟩
  intro v
  cases v with
  | none => simp [eventFlag]
  | some s => simp [eventFlag, pyStr]

/-- C4 counterexample: a call with no before mapping (a pure INSERT) stores
`NULL` in `changed_fields`, not the sorted union of the after mapping's
keys (`"a"`). -/
theorem record_audit_union_cex :
    ((record_audit emptyStore 1 "project" "P1" "INSERT" none (some [("a", "1")]) "admin").audit_logs.map
      (fun r => r.changed_fields)) = [none]
    ∧ ([none] : List (Option String)) ≠ [some "a"] :=
  ⟨by decide, by decide⟩

/-- C4 (amended): `record_audit` appends exactly one row; `changed_fields`
is the comma-joined sorted union of the before and after keys when both
mappings are present and `NULL` when either mapping is absent; the before
and after mappings are serialized independently of one another. -/
theorem record_audit_changed_fields_spec :
    ∀ (s : Store) (sid : Nat) (et ek ac actor : String)
      (b a : List (String × String)) (ob oa : Option (List (String × String))),
    ((record_audit s sid et ek ac (some b) (some a) actor).audit_logs =
        s.audit_logs ++ [{
          snapshot_id := sid, entity_type := et, entity_key := ek, action := ac,
          changed_fields := some (String.intercalate ","
            (sortLe strLe ((b.map Prod.fst ++ a.map Prod.fst).dedup))),
          before_json := some (serializeJson b), after_json := some (serializeJson a),
          actor := actor }])
    ∧ ((record_audit s sid et ek ac none oa actor).audit_logs =
        s.audit_logs ++ [{
          snapshot_id := sid, entity_type := et, entity_key := ek, action := ac,
          changed_fields := none,
          before_json := none, after_json := oa.map serializeJson,
          actor := actor }])
    ∧ ((record_audit s sid et ek ac ob none actor).audit_logs =
        s.audit_logs ++ [{
          snapshot_id := sid, entity_type := et, entity_key := ek, action := ac,
          changed_fields := none,
          before_json := ob.map serializeJson, after_json := none,
          actor := actor }]) := by
  intro s sid et ek ac actor b a ob oa
  refine ⟨rfl, ?_, ?_⟩
  · cases oa <;> rfl
  · cases ob <;> rfl

/-- C8: champion (and strategy-category) resolution is a deduplicating
get-or-create keyed by the stripped name: two names equal after stripping
resolve to the same row without a second insert, a whitespace-only name
yields no reference and creates nothing, name-uniqueness of the champions
table is preserved, and at most one row is created per call. -/
theorem get_champion_id_dedup_spec :
    ∀ (a b blank : String) (s : Store),
    pyStrip a = pyStrip b → pyStrip a ≠ "" → pyStrip blank = "" →
    (get_champion_id b (get_champion_id a s).2 = ((get_champion_id a s).1, (get_champion_id a s).2))
    ∧ get_champion_id blank s = (none, s)
    ∧ ((s.champions.map (fun c => c.name)).Nodup →
        ((get_champion_id a s).2.champions.map (fun c => c.name)).Nodup)
    ∧ ((get_champion_id a s).2.champions.length ≤ s.champions.length + 1)
    ∧ (get_strategy_id b (get_strategy_id a s).2 = ((get_strategy_id a s).1, (get_strategy_id a s).2))
    ∧ get_strategy_id blank s = (none, s) := by
  intro a b blank s hab ha hblank
  have hb : pyStrip b ≠ "" := by rw [← hab]; exact ha
  refine ⟨?_, get_champion_id_of_strip_eq blank s hblank, ?_, ?_, ?_,
    get_strategy_id_of_strip_eq blank s hblank⟩
  · rw [get_champion_id_of_strip_ne a s ha]
    cases hfind : s.champions.find? (fun ch => ch.name == pyStrip a) with
    | some ch =>
        simp only
        rw [get_champion_id_of_strip_ne b s hb, ← hab, hfind]
    | none =>
        simp only
        rw [get_champion_id_of_strip_ne b _ hb, ← hab]
        simp only [List.find?_append, hfind, Option.none_or]
        simp [List.find?]
  · intro hnodup
    rw [get_champion_id_of_strip_ne a s ha]
    cases hfind : s.champions.find? (fun ch => ch.name == pyStrip a) with
    | some ch => simpa using hnodup
    | none =>
        simp only [List.map_append, List.map_cons, List.map_nil]
        rw [List.nodup_append]
        refine ⟨hnodup, List.nodup_singleton _, ?_⟩
        intro x hx
        simp only [List.mem_singleton]
        intro hxa
        rcases List.mem_map.mp hx with ⟨c, hc, hcx⟩
        have := List.find?_eq_none.mp hfind c hc
        apply this
        simp [hcx, hxa]
  · rw [get_champion_id_of_strip_ne a s ha]
    cases hfind : s.champions.find? (fun ch => ch.name == pyStrip a) with
    | some ch => simp
    | none => simp
  · rw [get_strategy_id_of_strip_ne a s ha]
    cases hfind : s.strategy_categories.find? (fun c => c.name == pyStrip a) with
    | some c =>
        simp only
        rw [get_strategy_id_of_strip_ne b s hb, ← hab, hfind]
    | none =>
        simp only
        rw [get_strategy_id_of_strip_ne b _ hb, ← hab]
        simp only [List.find?_append, hfind, Option.none_or]
        simp [List.find?]

/-- C8 witness: `" Alice "` and `"Alice"` resolve to the same champion row
on a fresh store, with no second insert. -/
theorem get_champion_id_dedup_spec_witness :
    get_champion_id "Alice" (get_champion_id " Alice " emptyStore).2
      = ((get_champion_id " Alice " emptyStore).1, (get_champion_id " Alice " emptyStore).2) :=
  (get_champion_id_dedup_spec " Alice " "Alice" "  " emptyStore (by decide) (by decide) (by decide)).1

theorem importTransaction_fail_store (midx : MasterIdx) (master : Sheet) (sheets : List Sheet)
    (f d up : String) (fault : Bool) (s : Store)
    (h : (importTransaction midx master sheets f d up fault s).1.success = false) :
    (importTransaction midx master sheets f d up fault s).2 = s := by
  rcases hE : importTransaction midx master sheets f d up fault s with ⟨r, s2⟩
  rw [hE] at h
  simp only at h ⊢
  unfold importTransaction at hE
  split at hE
  · exact (congrArg Prod.snd hE).symm
  · split at hE
    · exact (congrArg Prod.snd hE).symm
    · exact (congrArg Prod.snd hE).symm
    · split at hE
      · exact (congrArg Prod.snd hE).symm
      · exfalso
        have h1 := congrArg (fun p => p.1.success) hE
        simp only at h1
        rw [← h1] at h
        exact absurd h (by decide)

theorem import_fail_store_unchanged (f : String) (wb : Option Workbook) (up : String)
    (fault : Bool) (s : Store) (h : (import_snapshot f wb up fault s).1.success = false) :
    (import_snapshot f wb up fault s).2 = s := by
  rcases hE : import_snapshot f wb up fault s with ⟨r, s2⟩
  rw [hE] at h
  simp only at h ⊢
  unfold import_snapshot at hE
  split at hE
  · exact (congrArg Prod.snd hE).symm
  · split at hE
    · exact (congrArg Prod.snd hE).symm
    · split at hE
      · exact (congrArg Prod.snd hE).symm
      · split at hE
        · exact (congrArg Prod.snd hE).symm
        · split at hE
          · exact (congrArg Prod.snd hE).symm
          · have h2 := importTransaction_fail_store _ _ _ _ _ _ _ _ (by rw [hE]; exact h)
            rw [hE] at h2
            exact h2

theorem importTransaction_report_shape (midx : MasterIdx) (master : Sheet) (sheets : List Sheet)
    (f d up : String) (fault : Bool) (s : Store) :
    ((importTransaction midx master sheets f d up fault s).1.success = true ↔
      (importTransaction midx master sheets f d up fault s).1.errors = [])
    ∧ (importTransaction midx master sheets f d up fault s).1.errors.length ≤ 1 := by
  rcases hE : importTransaction midx master sheets f d up fault s with ⟨r, s2⟩
  simp only
  unfold importTransaction at hE
  split at hE <;>
    [skip; (split at hE <;> [skip; skip; (split at hE <;> skip)])] <;>
  · have h1 := congrArg Prod.fst hE
    simp only at h1
    rw [← h1]
    simp

/-- C6: `import_snapshot` is a total function into report values — every
fatal condition is returned, never thrown: the report carries a success
flag, message, processed counts, warnings and fatal-error tags, a
failed import carries exactly one fatal tag, a successful one none. -/
theorem import_snapshot_returns_report :
    ∀ (f : String) (wb : Option Workbook) (up : String) (fault : Bool) (s : Store),
    ((import_snapshot f wb up fault s).1.success = true ↔
      (import_snapshot f wb up fault s).1.errors = [])
    ∧ (import_snapshot f wb up fault s).1.errors.length ≤ 1 := by
  intro f wb up fault s
  rcases hE : import_snapshot f wb up fault s with ⟨r, s2⟩
  simp only
  unfold import_snapshot at hE
  split at hE
  · have h1 := congrArg Prod.fst hE
    simp only at h1
    rw [← h1]; simp
  · split at hE
    · have h1 := congrArg Prod.fst hE
      simp only at h1
      rw [← h1]; simp
    · split at hE
      · have h1 := congrArg Prod.fst hE
        simp only at h1
        rw [← h1]; simp
      · split at hE
        · have h1 := congrArg Prod.fst hE
          simp only at h1
          rw [← h1]; simp
        · split at hE
          · have h1 := congrArg Prod.fst hE
            simp only at h1
            rw [← h1]; simp
          · have h1 := congrArg Prod.fst hE
            simp only at h1
            rw [← h1]
            exact importTransaction_report_shape _ _ _ _ _ _ _ _

/-- C1: when an import fails with a fatal condition arising after the
duplicate-date check (missing event columns, an unknown project reference,
or any unhandled fault), the whole transaction is rolled back: the store is
exactly the pre-import store, and no Snapshot, Project, or monthly-event
row for the filename's date exists in it. -/
theorem import_monthly_fatal_rollback :
    ∀ (f : String) (wb : Option Workbook) (up : String) (fault : Bool) (s : Store) (d : String),
    snapshotDateOf f = some d →
    (import_snapshot f wb up fault s).1.success = false →
    (import_snapshot f wb up fault s).1.errors ≠ ["Filename does not match pattern"] →
    (import_snapshot f wb up fault s).1.errors ≠ ["Workbook load error"] →
    (import_snapshot f wb up fault s).1.errors ≠ ["AX_Master missing"] →
    (import_snapshot f wb up fault s).1.errors ≠ ["Missing columns"] →
    (import_snapshot f wb up fault s).1.errors ≠ ["Duplicate snapshot date"] →
    ((import_snapshot f wb up fault s).2 = s
     ∧ (∀ snap ∈ (import_snapshot f wb up fault s).2.snapshots, snap.snapshot_date ≠ d)
     ∧ (∀ p ∈ (import_snapshot f wb up fault s).2.projects,
          ∀ snap ∈ (import_snapshot f wb up fault s).2.snapshots,
          snap.snapshot_id = p.snapshot_id → snap.snapshot_date ≠ d)
     ∧ (∀ e ∈ (import_snapshot f wb up fault s).2.project_monthly_events,
          ∀ snap ∈ (import_snapshot f wb up fault s).2.snapshots,
          snap.snapshot_id = e.snapshot_id → snap.snapshot_date ≠ d)) := by
  intro f wb up fault s d hd hsucc h1 h2 h3 h4 h5
  rcases hE : import_snapshot f wb up fault s with ⟨r, s2⟩
  rw [hE] at hsucc h1 h2 h3 h4 h5
  simp only at hsucc h1 h2 h3 h4 h5 ⊢
  unfold import_snapshot at hE
  split at hE
  · rename_i heq
    rw [hd] at heq
    cases heq
  · rename_i sd hsd
    have hdsd : d = sd := by
      rw [hd] at hsd
      exact Option.some.inj hsd
    subst hdsd
    split at hE
    · exfalso
      have hr := congrArg Prod.fst hE
      simp only at hr
      rw [← hr] at h2
      exact h2 rfl
    · split at hE
      · exfalso
        have hr := congrArg Prod.fst hE
        simp only at hr
        rw [← hr] at h3
        exact h3 rfl
      · split at hE
        · exfalso
          have hr := congrArg Prod.fst hE
          simp only at hr
          rw [← hr] at h4
          exact h4 rfl
        · split at hE
          · exfalso
            have hr := congrArg Prod.fst hE
            simp only at hr
            rw [← hr] at h5
            exact h5 rfl
          · rename_i hdup
            have hstore : s2 = s := by
              have hfail := importTransaction_fail_store _ _ _ _ _ _ _ _ (by rw [hE]; exact hsucc)
              rw [hE] at hfail
              exact hfail
            rw [hstore]
            have hany : (s.snapshots.any fun row => row.snapshot_date == d) = false := by
              simpa using hdup
            have hsnap : ∀ snap ∈ s.snapshots, snap.snapshot_date ≠ d := by
              intro snap hmem heqd
              exact (List.any_eq_false.mp hany snap hmem) (by simp [heqd])
            exact ⟨rfl, hsnap, fun p _ snap hs _ => hsnap snap hs,
              fun e _ snap hs _ => hsnap snap hs⟩

/-- C1 witness: the unknown-project workbook rolls the store back to its
pre-import state. -/
theorem import_monthly_fatal_rollback_witness :
    (import_snapshot "2025-01-01.xlsx" (some wbUnknownRef) "t0" false emptyStore).2 = emptyStore :=
  (import_monthly_fatal_rollback "2025-01-01.xlsx" (some wbUnknownRef) "t0" false emptyStore
    "2025-01-01" (by decide) (by decide) (by decide) (by decide) (by decide) (by decide)
    (by decide)).1

/-- C10: every failed import leaves the champions and strategy_categories
tables exactly as they were before the call — the lazily created reference
rows of a failed import are rolled back together with the snapshot writes,
because the get-or-create statements run on the same uncommitted
transaction. -/
theorem import_failure_preserves_reference_tables :
    ∀ (f : String) (wb : Option Workbook) (up : String) (fault : Bool) (s : Store),
    (import_snapshot f wb up fault s).1.success = false →
    ((import_snapshot f wb up fault s).2.champions = s.champions
     ∧ (import_snapshot f wb up fault s).2.strategy_categories = s.strategy_categories) := by
  intro f wb up fault s h
  rw [import_fail_store_unchanged f wb up fault s h]
  exact ⟨rfl, rfl⟩

/-- C10 witness: the unknown-project import creates champion `Alice` and
strategy `전략A` mid-transaction, yet the failed import leaves both tables
empty. -/
theorem import_failure_preserves_reference_tables_witness :
    (import_snapshot "2025-01-01.xlsx" (some wbUnknownRef) "t0" false emptyStore).2.champions
      = emptyStore.champions :=
  (import_failure_preserves_reference_tables "2025-01-01.xlsx" (some wbUnknownRef) "t0" false
    emptyStore (by decide)).1

theorem round4_zero : round4 0 = 0 := by
  simp [round4]

theorem prevCumulativeOf_none (s : Store) (sid : Nat) (month : String)
    (h : prevMonthOf (get_snapshot_months s sid) month = none) :
    prevCumulativeOf s sid month = 0 := by
  unfold prevCumulativeOf
  rw [h]

theorem prevCumulativeOf_some (s : Store) (sid : Nat) (month pm : String)
    (h : prevMonthOf (get_snapshot_months s sid) month = some pm) :
    prevCumulativeOf s sid month = countCumulativeApproved s sid pm := by
  unfold prevCumulativeOf
  rw [h]

/-- C5: the KPI ratios follow the stated formulas with their zero edge
cases — proposal inflow is month proposals over month approvals and 0 when
approvals are 0, expansion is this month's cumulative approved over the
previous available month's and 0 when there is no previous month or its
cumulative count is 0, participation is 0 when the snapshot has no
champions — and every ratio is rounded to 4 decimal places. -/
theorem compute_kpis_spec :
    ∀ (s : Store) (sid : Nat) (month : String),
    ((compute_kpis s sid month).month_proposals = countMonthProposals s sid month)
    ∧ ((compute_kpis s sid month).month_approvals = countMonthApprovals s sid month)
    ∧ ((compute_kpis s sid month).cumulative_approved = countCumulativeApproved s sid month)
    ∧ ((compute_kpis s sid month).prev_month = prevMonthOf (get_snapshot_months s sid) month)
    ∧ (countMonthApprovals s sid month = 0 →
        (compute_kpis s sid month).proposal_inflow_rate = 0)
    ∧ (countMonthApprovals s sid month ≠ 0 →
        (compute_kpis s sid month).proposal_inflow_rate =
          round4 ((countMonthProposals s sid month : ℚ) / (countMonthApprovals s sid month : ℚ)))
    ∧ (prevMonthOf (get_snapshot_months s sid) month = none →
        (compute_kpis s sid month).expansion_rate = 0)
    ∧ (∀ pm, prevMonthOf (get_snapshot_months s sid) month = some pm →
        countCumulativeApproved s sid pm = 0 →
        (compute_kpis s sid month).expansion_rate = 0)
    ∧ (∀ pm, prevMonthOf (get_snapshot_months s sid) month = some pm →
        countCumulativeApproved s sid pm ≠ 0 →
        (compute_kpis s sid month).expansion_rate =
          round4 ((countCumulativeApproved s sid month : ℚ) / (countCumulativeApproved s sid pm : ℚ)))
    ∧ (countTotalChampions s sid = 0 →
        (compute_kpis s sid month).champion_participation_rate = 0)
    ∧ (countTotalChampions s sid ≠ 0 →
        (compute_kpis s sid month).champion_participation_rate =
          round4 ((countActiveChampions s sid month : ℚ) / (countTotalChampions s sid : ℚ))) := by
  intro s sid month
  refine ⟨rfl, rfl, rfl, rfl, ?_, ?_, ?_, ?_, ?_, ?_, ?_⟩
  · intro h
    show round4 (if countMonthApprovals s sid month = 0 then 0
      else (countMonthProposals s sid month : ℚ) / (countMonthApprovals s sid month : ℚ)) = 0
    rw [if_pos h, round4_zero]
  · intro h
    show round4 (if countMonthApprovals s sid month = 0 then 0
      else (countMonthProposals s sid month : ℚ) / (countMonthApprovals s sid month : ℚ)) = _
    rw [if_neg h]
  · intro h
    show round4 (if prevCumulativeOf s sid month = 0 then 0
      else (countCumulativeApproved s sid month : ℚ) / (prevCumulativeOf s sid month : ℚ)) = 0
    rw [if_pos (prevCumulativeOf_none s sid month h), round4_zero]
  · intro pm hp h
    show round4 (if prevCumulativeOf s sid month = 0 then 0
      else (countCumulativeApproved s sid month : ℚ) / (prevCumulativeOf s sid month : ℚ)) = 0
    rw [if_pos (by rw [prevCumulativeOf_some s sid month pm hp]; exact h), round4_zero]
  · intro pm hp h
    show round4 (if prevCumulativeOf s sid month = 0 then 0
      else (countCumulativeApproved s sid month : ℚ) / (prevCumulativeOf s sid month : ℚ)) = _
    rw [if_neg (by rw [prevCumulativeOf_some s sid month pm hp]; exact h),
      prevCumulativeOf_some s sid month pm hp]
  · intro h
    show round4 (if countTotalChampions s sid = 0 then 0
      else (countActiveChampions s sid month : ℚ) / (countTotalChampions s sid : ℚ)) = 0
    rw [if_pos h, round4_zero]
  · intro h
    show round4 (if countTotalChampions s sid = 0 then 0
      else (countActiveChampions s sid month : ℚ) / (countTotalChampions s sid : ℚ)) = _
    rw [if_neg h]

/-- C5 witness: a snapshot whose only event month has zero approvals, no
previous month, and no champions yields all three zero edge cases. -/
theorem compute_kpis_spec_witness :
    (compute_kpis storeOneEvent 1 "2025-01").proposal_inflow_rate = 0
    ∧ (compute_kpis storeOneEvent 1 "2025-01").expansion_rate = 0
    ∧ (compute_kpis storeOneEvent 1 "2025-01").champion_participation_rate = 0 :=
  ⟨(compute_kpis_spec storeOneEvent 1 "2025-01").2.2.2.2.1 (by decide),
   (compute_kpis_spec storeOneEvent 1 "2025-01").2.2.2.2.2.2.1 (by decide),
   (compute_kpis_spec storeOneEvent 1 "2025-01").2.2.2.2.2.2.2.2.2.1 (by decide)⟩

/-- C3 counterexample: on a store with one project, a run in which the
audit write fails after the project UPDATE has committed leaves the UPDATE
durable with no AuditLog row — the pair is not atomic, falsifying
"either both are committed or neither is". -/
theorem update_project_pair_not_atomic_cex :
    (outcomeStore (update_project storeOneProject 1 "P1" "새이름" none none none "제안" none none
        false)).map (fun st => (st.projects.map (fun p => p.project_name), st.audit_logs))
      = some (["새이름"], []) := by decide

/-- C3 (amended): within `update_project` the project UPDATE is committed
first in its own transaction and the audit row afterwards in a second one:
on the success path both are committed before the redirect response is
produced, and when the audit write fails after the first commit the UPDATE
stays committed with no audit row appended. -/
theorem update_project_commit_order :
    ∀ (s : Store) (sid : Nat) (pid pname : String) (cid stid : Option Nat)
      (org : Option String) (status : String) (pm am : Option String) (before : ProjectRow),
    s.projects.find? (fun p => p.snapshot_id == sid && p.project_id == pid) = some before →
    (update_project s sid pid pname cid stid org status pm am false =
        .auditFailed (applyProjectUpdate s sid pid pname (normalizeRefId cid) (normalizeRefId stid)
          org status pm am))
    ∧ ((applyProjectUpdate s sid pid pname (normalizeRefId cid) (normalizeRefId stid)
          org status pm am).audit_logs = s.audit_logs)
    ∧ (update_project s sid pid pname cid stid org status pm am true =
        .ok (record_audit
              (applyProjectUpdate s sid pid pname (normalizeRefId cid) (normalizeRefId stid)
                org status pm am)
              sid "project" pid "UPDATE" (some (projectAuditDict before))
              (some (projectAuditDict
                (((applyProjectUpdate s sid pid pname (normalizeRefId cid) (normalizeRefId stid)
                    org status pm am).projects.find?
                  (fun p => p.snapshot_id == sid && p.project_id == pid)).getD before)))
              "admin")
            ("/admin/projects?snapshot_id=" ++ toString sid))
    ∧ ((record_audit
          (applyProjectUpdate s sid pid pname (normalizeRefId cid) (normalizeRefId stid)
            org status pm am)
          sid "project" pid "UPDATE" (some (projectAuditDict before))
          (some (projectAuditDict
            (((applyProjectUpdate s sid pid pname (normalizeRefId cid) (normalizeRefId stid)
                org status pm am).projects.find?
              (fun p => p.snapshot_id == sid && p.project_id == pid)).getD before)))
          "admin").audit_logs =
        s.audit_logs ++
          [auditRowOf sid "project" pid "UPDATE" (some (projectAuditDict before))
            (some (projectAuditDict
              (((applyProjectUpdate s sid pid pname (normalizeRefId cid) (normalizeRefId stid)
                  org status pm am).projects.find?
                (fun p => p.snapshot_id == sid && p.project_id == pid)).getD before)))
            "admin"]) := by
  intro s sid pid pname cid stid org status pm am before hfind
  refine ⟨?_, rfl, ?_, rfl⟩
  · unfold update_project
    rw [hfind]
    rfl
  · unfold update_project
    rw [hfind]
    rfl

/-- C3 amended witness: on a concrete store the failing-audit run keeps the
UPDATE committed without touching the audit log. -/
theorem update_project_commit_order_witness :
    update_project storeOneProject 1 "P1" "새이름" none none none "제안" none none false =
      .auditFailed (applyProjectUpdate storeOneProject 1 "P1" "새이름"
        (normalizeRefId none) (normalizeRefId none) none "제안" none none) :=
  (update_project_commit_order storeOneProject 1 "P1" "새이름" none none none "제안" none none
    ⟨1, "P1", "프로젝트1", none, none, none, "제안", none, none⟩ (by decide)).1

theorem get_champion_id_projects (name : String) (s : Store) :
    (get_champion_id name s).2.projects = s.projects := by
  unfold get_champion_id
  split
  · rfl
  · dsimp only
    split
    · rfl
    · split <;> rfl

theorem get_strategy_id_projects (name : String) (s : Store) :
    (get_strategy_id name s).2.projects = s.projects := by
  unfold get_strategy_id
  split
  · rfl
  · dsimp only
    split
    · rfl
    · split <;> rfl

theorem pyOr_ne_of_ne (v : CellVal) (d : String) (hd : d ≠ "") : pyOr v d ≠ "" := by
  cases v with
  | none => simpa [pyOr, pyTruthy] using hd
  | some sv =>
      by_cases hs : sv = ""
      · simpa [pyOr, pyTruthy, hs] using hd
      · simp [pyOr, pyTruthy, pyStr, hs]

theorem processEventRows_ok_projects (idx : EventIdx) (sid : Nat) (mk sn : String) (np : Nat) :
    ∀ (rows : List (List CellVal)) (s : Store) (w : List String) (c : Nat)
      (s2 : Store) (w2 : List String) (c2 : Nat),
    processEventRows idx sid mk sn np rows s w c = .ok s2 w2 c2 → s2.projects = s.projects := by
  intro rows
  induction rows with
  | nil =>
      intro s w c s2 w2 c2 h
      unfold processEventRows at h
      cases h
      rfl
  | cons row rest ih =>
      intro s w c s2 w2 c2 h
      unfold processEventRows at h
      split at h
      · exact ih _ _ _ _ _ _ h
      · dsimp only at h
        split at h
        · exact ih _ _ _ _ _ _ h
        · split at h
          · exact ImportStep.noConfusion h
          · split at h
            · split at h
              · exact ImportStep.noConfusion h
              · have h2 := ih _ _ _ _ _ _ h
                rw [h2]
                exact get_champion_id_projects _ _
            · split at h
              · exact ImportStep.noConfusion h
              · have h2 := ih _ _ _ _ _ _ h
                rw [h2]

theorem processSheets_ok_projects (sid : Nat) (np : Nat) :
    ∀ (sheets : List Sheet) (s : Store) (w : List String) (c : Nat)
      (s2 : Store) (w2 : List String) (c2 : Nat),
    processSheets sid np sheets s w c = .ok s2 w2 c2 → s2.projects = s.projects := by
  intro sheets
  induction sheets with
  | nil =>
      intro s w c s2 w2 c2 h
      unfold processSheets at h
      cases h
      rfl
  | cons sheet rest ih =>
      intro s w c s2 w2 c2 h
      unfold processSheets at h
      split at h
      · exact ih _ _ _ _ _ _ h
      · split at h
        · exact ih _ _ _ _ _ _ h
        · split at h
          · exact ImportStep.noConfusion h
          · split at h
            · rename_i s1 w1 c1 heq
              have ha := processEventRows_ok_projects _ _ _ _ _ _ _ _ _ _ _ _ heq
              have hb := ih _ _ _ _ _ _ h
              rw [hb, ha]
            · rename_i hne
              exact (hne s2 w2 c2 h).elim

theorem processMasterRows_ok_status (idx : MasterIdx) (sid : Nat) :
    ∀ (rows : List (List CellVal)) (s : Store) (w : List String) (c : Nat)
      (s2 : Store) (w2 : List String) (c2 : Nat),
    processMasterRows idx sid rows s w c = .ok (s2, w2, c2) →
    (∀ p ∈ s.projects, p.current_status ≠ "") →
    ∀ p ∈ s2.projects, p.current_status ≠ "" := by
  intro rows
  induction rows with
  | nil =>
      intro s w c s2 w2 c2 h hinv
      unfold processMasterRows at h
      cases h
      exact hinv
  | cons row rest ih =>
      intro s w c s2 w2 c2 h hinv
      unfold processMasterRows at h
      split at h
      · exact ih _ _ _ _ _ _ h hinv
      · dsimp only at h
        split at h
        · exact ih _ _ _ _ _ _ h hinv
        · split at h <;> split at h <;> split at h <;>
            first
              | exact Except.noConfusion h
              | (refine ih _ _ _ _ _ _ h ?_
                 intro p hp
                 dsimp only at hp
                 rw [List.mem_append] at hp
                 rcases hp with hp | hp
                 · try simp only [get_strategy_id_projects, get_champion_id_projects] at hp
                   exact hinv p hp
                 · rw [List.mem_singleton] at hp
                   subst hp
                   exact pyOr_ne_of_ne _ _ (by decide))

theorem importTransaction_status (midx : MasterIdx) (master : Sheet) (sheets : List Sheet)
    (f d up : String) (fault : Bool) (s : Store)
    (hinv : ∀ p ∈ s.projects, p.current_status ≠ "") :
    ∀ p ∈ (importTransaction midx master sheets f d up fault s).2.projects,
      p.current_status ≠ "" := by
  unfold importTransaction
  split
  · exact hinv
  · split
    · exact hinv
    · exact hinv
    · split
      · exact hinv
      · rename_i xA s1 w1 nP heqM xB sOK w2 nEv heqS hfault
        have h1 := processMasterRows_ok_status midx s.nextSnapshotId master.rows
          (snapshotInsert s d up f) [] 0 s1 w1 nP heqM hinv
        have hproj := processSheets_ok_projects _ _ _ _ _ _ _ _ _ heqS
        intro p hp
        dsimp only at hp
        rw [hproj] at hp
        exact h1 p hp

/-- C7 (amended): the importer never writes an empty `current_status` — a
blank status cell defaults to `"제안"` — and a whole import preserves the
invariant that every visible project row has a non-empty status.  (The CRUD
editor, by contrast, stores the submitted status verbatim; see the
counterexample.) -/
theorem import_snapshot_status_nonempty :
    ∀ (f : String) (wb : Option Workbook) (up : String) (fault : Bool) (s : Store),
    (∀ p ∈ s.projects, p.current_status ≠ "") →
    ∀ p ∈ (import_snapshot f wb up fault s).2.projects, p.current_status ≠ "" := by
  intro f wb up fault s hinv
  unfold import_snapshot
  split
  · exact hinv
  · split
    · exact hinv
    · split
      · exact hinv
      · split
        · exact hinv
        · split
          · exact hinv
          · exact importTransaction_status _ _ _ _ _ _ _ _ hinv

/-- C7 witness: the end-to-end workbook with a blank status cell imports a
project whose status defaulted to `"제안"`, hence non-empty. -/
theorem import_snapshot_status_nonempty_witness :
    ({ snapshot_id := 1, project_id := "P1", project_name := "프로젝트1", champion_id := some 1,
       strategy_id := some 1, org_unit := none, current_status := "제안", proposed_month := none,
       approved_month := none } : ProjectRow).current_status ≠ "" :=
  import_snapshot_status_nonempty "2025-01-01.xlsx" (some wbGood) "t0" false emptyStore
    (by intro p hp; simp [emptyStore] at hp) _ (by decide)

/-- C7 counterexample: the CRUD edit endpoint stores the submitted
`current_status` verbatim — posting an empty status leaves a committed
project row with `current_status = ""`, violating the claimed invariant for
the CRUD mutation path. -/
theorem update_project_empty_status_cex :
    (outcomeStore (update_project storeOneProject 1 "P1" "프로젝트1" none none none "" none none
        true)).map (fun st => st.projects.map (fun p => p.current_status)) = some [""] := by
  decide

theorem insertLe_perm (le : α → α → Bool) (a : α) :
    ∀ l : List α, List.Perm (insertLe le a l) (a :: l) := by
  intro l
  induction l with
  | nil => rfl
  | cons b t ih =>
      unfold insertLe
      split
      · rfl
      · exact ((ih.cons b).trans (List.Perm.swap a b t))

theorem sortLe_perm (le : α → α → Bool) : ∀ l : List α, List.Perm (sortLe le l) l := by
  intro l
  induction l with
  | nil => rfl
  | cons a t ih => exact (insertLe_perm le a (sortLe le t)).trans (ih.cons a)

theorem length_sortLe (le : α → α → Bool) (l : List α) :
    (sortLe le l).length = l.length :=
  (sortLe_perm le l).length_eq

theorem mem_sortLe (le : α → α → Bool) (l : List α) (x : α) :
    x ∈ sortLe le l ↔ x ∈ l :=
  (sortLe_perm le l).mem_iff

theorem mem_insertLe (le : α → α → Bool) (a : α) (l : List α) (x : α) :
    x ∈ insertLe le a l ↔ x = a ∨ x ∈ l := by
  rw [(insertLe_perm le a l).mem_iff, List.mem_cons]

theorem pairwise_insertLe (le : α → α → Bool)
    (htrans : ∀ a b c, le a b = true → le b c = true → le a c = true)
    (htotal : ∀ a b, le a b = true ∨ le b a = true) (a : α) :
    ∀ l : List α, l.Pairwise (fun x y => le x y = true) →
      (insertLe le a l).Pairwise (fun x y => le x y = true) := by
  intro l
  induction l with
  | nil =>
      intro _
      exact List.pairwise_singleton _ a
  | cons b t ih =>
      intro hl
      unfold insertLe
      split
      · rename_i hab
        refine List.Pairwise.cons ?_ hl
        intro x hx
        rcases List.mem_cons.mp hx with hx | hx
        · rw [hx]; exact hab
        · exact htrans a b x hab (List.rel_of_pairwise_cons hl hx)
      · rename_i hab
        have hba : le b a = true := by
          rcases htotal a b with h | h
          · exact absurd h hab
          · exact h
        refine List.Pairwise.cons ?_ (ih hl.tail)
        intro x hx
        rcases (mem_insertLe le a t x).mp hx with hx | hx
        · rw [hx]; exact hba
        · exact List.rel_of_pairwise_cons hl hx

theorem pairwise_sortLe (le : α → α → Bool)
    (htrans : ∀ a b c, le a b = true → le b c = true → le a c = true)
    (htotal : ∀ a b, le a b = true ∨ le b a = true) :
    ∀ l : List α, (sortLe le l).Pairwise (fun x y => le x y = true) := by
  intro l
  induction l with
  | nil => exact List.Pairwise.nil
  | cons a t ih => exact pairwise_insertLe le htrans htotal a (sortLe le t) ih

theorem lexLeChars_total : ∀ a b : List Char, lexLeChars a b = true ∨ lexLeChars b a = true := by
  intro a
  induction a with
  | nil => intro b; left; rfl
  | cons x xs ih =>
      intro b
      cases b with
      | nil => right; rfl
      | cons y ys =>
          unfold lexLeChars
          rcases Nat.lt_trichotomy x.toNat y.toNat with h | h | h
          · left
            rw [if_pos h]
          · rw [if_neg (by omega), if_neg (by omega), if_neg (by omega), if_neg (by omega)]
            exact ih ys
          · right
            rw [if_pos h]

theorem lexLeChars_trans :
    ∀ a b c : List Char, lexLeChars a b = true → lexLeChars b c = true →
      lexLeChars a c = true := by
  intro a
  induction a with
  | nil => intro b c _ _; rfl
  | cons x xs ih =>
      intro b c hab hbc
      cases b with
      | nil => exact absurd hab (by simp [lexLeChars])
      | cons y ys =>
          cases c with
          | nil => exact absurd hbc (by simp [lexLeChars])
          | cons z zs =>
              unfold lexLeChars at hab hbc ⊢
              rcases Nat.lt_trichotomy x.toNat y.toNat with hxy | hxy | hxy
              · rcases Nat.lt_trichotomy y.toNat z.toNat with hyz | hyz | hyz
                · rw [if_pos (by omega)]
                · rw [if_pos (by omega)]
                · rw [if_neg (by omega), if_pos (by omega)] at hbc
                  exact absurd hbc (by simp)
              · rcases Nat.lt_trichotomy y.toNat z.toNat with hyz | hyz | hyz
                · rw [if_pos (by omega)]
                · rw [if_neg (by omega), if_neg (by omega)] at hab
                  rw [if_neg (by omega), if_neg (by omega)] at hbc
                  rw [if_neg (by omega), if_neg (by omega)]
                  exact ih ys zs hab hbc
                · rw [if_neg (by omega), if_pos (by omega)] at hbc
                  exact absurd hbc (by simp)
              · rw [if_neg (by omega), if_pos (by omega)] at hab
                exact absurd hab (by simp)

theorem strLe_total : ∀ a b : String, strLe a b = true ∨ strLe b a = true := by
  intro a b
  exact lexLeChars_total a.toList b.toList

theorem strLe_trans :
    ∀ a b c : String, strLe a b = true → strLe b c = true → strLe a c = true := by
  intro a b c
  exact lexLeChars_trans a.toList b.toList c.toList

theorem lookup_eq_none_of_not_mem_keys {β : Type} (k : Option Nat) :
    ∀ (es : List (Option Nat × β)), k ∉ es.map Prod.fst → es.lookup k = none := by
  intro es
  induction es with
  | nil => intro _; rfl
  | cons kb rest ih =>
      intro h
      rw [List.map_cons, List.mem_cons] at h
      push_neg at h
      have hbf : (k == kb.1) = false := beq_eq_false_iff_ne.mpr h.1
      show (match k == kb.1 with | true => some kb.2 | false => rest.lookup k) = none
      rw [hbf]
      exact ih h.2

theorem lookup_map_self {β : Type} (f : Option Nat → β) (k : Option Nat) :
    ∀ (ks : List (Option Nat)),
    (ks.map (fun x => (x, f x))).lookup k = if k ∈ ks then some (f k) else none := by
  intro ks
  induction ks with
  | nil => rfl
  | cons a rest ih =>
      rw [List.map_cons]
      show (match k == a with
        | true => some (f a)
        | false => (rest.map (fun x => (x, f x))).lookup k) = _
      by_cases hk : k = a
      · have hbt : (k == a) = true := beq_iff_eq.mpr hk
        rw [hbt, hk, if_pos (List.mem_cons_self a rest)]
      · have hbf : (k == a) = false := beq_eq_false_iff_ne.mpr hk
        rw [hbf, ih]
        by_cases hm : k ∈ rest
        · rw [if_pos hm, if_pos (List.mem_cons_of_mem a hm)]
        · rw [if_neg hm, if_neg (by simp [List.mem_cons, hk, hm])]

theorem groupCounts_keys_nodup (l : List (Option Nat)) :
    ((groupCounts l).map Prod.fst).Nodup := by
  unfold groupCounts
  rw [List.map_map]
  have hcomp : (Prod.fst ∘ fun k => (k, l.count k)) = id := rfl
  rw [hcomp, List.map_id]
  exact l.nodup_dedup

theorem lookup_groupCounts (l : List (Option Nat)) (k : Option Nat) :
    (groupCounts l).lookup k = if k ∈ l then some (l.count k) else none := by
  unfold groupCounts
  rw [lookup_map_self]
  by_cases hm : k ∈ l
  · rw [if_pos (List.mem_dedup.mpr hm), if_pos hm]
  · rw [if_neg (fun hc => hm (List.mem_dedup.mp hc)), if_neg hm]

theorem dictSet_map_form (ks : List (Option Nat × String)) (g : Option Nat → StratTriple)
    (k : Option Nat) (f : StratTriple → StratTriple) :
    dictSet (ks.map (fun kv => (kv.1, g kv.1))) k f =
      ks.map (fun kv => (kv.1, if kv.1 == k then f (g kv.1) else g kv.1)) := by
  unfold dictSet
  rw [List.map_map]
  refine List.map_congr_left ?_
  intro kv _
  simp only [Function.comp]
  split
  · rfl
  · rfl

theorem foldl_dictSet_eval (setF : Nat → StratTriple → StratTriple)
    (ks : List (Option Nat × String)) :
    ∀ (gs : List (Option Nat × Nat)) (g gFin : Option Nat → StratTriple),
    (gs.map Prod.fst).Nodup →
    (∀ k, gFin k = match gs.lookup k with
      | some c => setF c (g k)
      | none => g k) →
    gs.foldl (fun d kc => dictSet d kc.1 (setF kc.2)) (ks.map (fun kv => (kv.1, g kv.1)))
      = ks.map (fun kv => (kv.1, gFin kv.1)) := by
  intro gs
  induction gs with
  | nil =>
      intro g gFin _ hg
      rw [List.foldl_nil]
      refine List.map_congr_left ?_
      intro kv _
      rw [hg kv.1]
      rfl
  | cons kc rest ih =>
      intro g gFin hnd hg
      rw [List.foldl_cons, dictSet_map_form]
      have hnd2 : (kc.1 :: rest.map Prod.fst).Nodup := by
        rw [List.map_cons] at hnd
        exact hnd
      have hnd' := List.nodup_cons.mp hnd2
      refine ih (fun k => if k == kc.1 then setF kc.2 (g k) else g k) gFin hnd'.2 ?_
      intro k
      rw [hg k]
      show (match ((kc.1, kc.2) :: rest).lookup k with
        | some c => setF c (g k)
        | none => g k) = _
      rw [List.lookup_cons]
      by_cases hk : k = kc.1
      · have hrest : rest.lookup k = none := by
          apply lookup_eq_none_of_not_mem_keys
          rw [hk]
          exact hnd'.1
        have hbt : (k == kc.1) = true := beq_iff_eq.mpr hk
        rw [hbt, hrest]
        dsimp only
        simp [hbt]
      · have hbf : (k == kc.1) = false := beq_eq_false_iff_ne.mpr hk
        rw [hbf]
        dsimp only
        simp [hbf]

theorem lookup_self_of_nodup {β : Type} :
    ∀ (d : List (Option Nat × β)), (d.map Prod.fst).Nodup →
      ∀ kv ∈ d, d.lookup kv.1 = some kv.2 := by
  intro d
  induction d with
  | nil =>
      intro _ kv hkv
      exact absurd hkv (List.not_mem_nil kv)
  | cons a rest ih =>
      intro hnd kv hkv
      rw [List.map_cons] at hnd
      have hnd' := List.nodup_cons.mp hnd
      rcases List.mem_cons.mp hkv with h | h
      · subst h
        show (match kv.1 == kv.1 with | true => some kv.2 | false => rest.lookup kv.1) = some kv.2
        rw [beq_self_eq_true]
      · have hne : kv.1 ≠ a.1 := by
          intro he
          apply hnd'.1
          rw [← he]
          exact List.mem_map.mpr ⟨kv, h, rfl⟩
        show (match kv.1 == a.1 with | true => some a.2 | false => rest.lookup kv.1) = some kv.2
        rw [beq_eq_false_iff_ne.mpr hne]
        exact ih hnd'.2 kv h

theorem compute_distribution_form (s : Store) (sid : Nat) (month : String)
    (hnd : (s.strategy_categories.map (fun c => c.strategy_id)).Nodup) :
    compute_distribution s sid month =
      sortLe (fun a b => strLe a.1 b.1)
        ((s.strategy_categories.map (fun c =>
            (c.name, (proposalStrategyKeys s sid month).count (some c.strategy_id),
             (approvalStrategyKeys s sid month).count (some c.strategy_id),
             (activeStrategyKeys s sid).count (some c.strategy_id))))
          ++ [("(미할당)", (proposalStrategyKeys s sid month).count none,
               (approvalStrategyKeys s sid month).count none,
               (activeStrategyKeys s sid).count none)]) := by
  have h1 : (groupCounts (proposalStrategyKeys s sid month)).foldl
      (fun d kc => dictSet d kc.1 (setProposals kc.2))
      (((s.strategy_categories.map (fun c => (some c.strategy_id, c.name))) ++
          [((none : Option Nat), "(미할당)")]).map (fun kv => (kv.1, (0, 0, 0))))
      = ((s.strategy_categories.map (fun c => (some c.strategy_id, c.name))) ++
          [((none : Option Nat), "(미할당)")]).map
        (fun kv => (kv.1, ((proposalStrategyKeys s sid month).count kv.1, 0, 0))) := by
    refine foldl_dictSet_eval setProposals _ _ (fun _ => (0, 0, 0))
      (fun k => ((proposalStrategyKeys s sid month).count k, 0, 0))
      (groupCounts_keys_nodup _) ?_
    intro k
    rw [lookup_groupCounts]
    by_cases hm : k ∈ proposalStrategyKeys s sid month
    · rw [if_pos hm]
      rfl
    · rw [if_neg hm]
      dsimp only
      rw [List.count_eq_zero.mpr hm]
  have h2 : (groupCounts (approvalStrategyKeys s sid month)).foldl
      (fun d kc => dictSet d kc.1 (setApprovals kc.2))
      (((s.strategy_categories.map (fun c => (some c.strategy_id, c.name))) ++
          [((none : Option Nat), "(미할당)")]).map
        (fun kv => (kv.1, ((proposalStrategyKeys s sid month).count kv.1, 0, 0))))
      = ((s.strategy_categories.map (fun c => (some c.strategy_id, c.name))) ++
          [((none : Option Nat), "(미할당)")]).map
        (fun kv => (kv.1, ((proposalStrategyKeys s sid month).count kv.1,
            (approvalStrategyKeys s sid month).count kv.1, 0))) := by
    refine foldl_dictSet_eval setApprovals _ _
      (fun k => ((proposalStrategyKeys s sid month).count k, 0, 0))
      (fun k => ((proposalStrategyKeys s sid month).count k,
        (approvalStrategyKeys s sid month).count k, 0))
      (groupCounts_keys_nodup _) ?_
    intro k
    rw [lookup_groupCounts]
    by_cases hm : k ∈ approvalStrategyKeys s sid month
    · rw [if_pos hm]
      rfl
    · rw [if_neg hm]
      dsimp only
      rw [List.count_eq_zero.mpr hm]
  have h3 : (groupCounts (activeStrategyKeys s sid)).foldl
      (fun d kc => dictSet d kc.1 (setActive kc.2))
      (((s.strategy_categories.map (fun c => (some c.strategy_id, c.name))) ++
          [((none : Option Nat), "(미할당)")]).map
        (fun kv => (kv.1, ((proposalStrategyKeys s sid month).count kv.1,
            (approvalStrategyKeys s sid month).count kv.1, 0))))
      = ((s.strategy_categories.map (fun c => (some c.strategy_id, c.name))) ++
          [((none : Option Nat), "(미할당)")]).map
        (fun kv => (kv.1, ((proposalStrategyKeys s sid month).count kv.1,
            (approvalStrategyKeys s sid month).count kv.1,
            (activeStrategyKeys s sid).count kv.1))) := by
    refine foldl_dictSet_eval setActive _ _
      (fun k => ((proposalStrategyKeys s sid month).count k,
        (approvalStrategyKeys s sid month).count k, 0))
      (fun k => ((proposalStrategyKeys s sid month).count k,
        (approvalStrategyKeys s sid month).count k,
        (activeStrategyKeys s sid).count k))
      (groupCounts_keys_nodup _) ?_
    intro k
    rw [lookup_groupCounts]
    by_cases hm : k ∈ activeStrategyKeys s sid
    · rw [if_pos hm]
      rfl
    · rw [if_neg hm]
      dsimp only
      rw [List.count_eq_zero.mpr hm]
  have hkeys : ((((s.strategy_categories.map (fun c => (some c.strategy_id, c.name))) ++
      [((none : Option Nat), "(미할당)")]).map Prod.fst)).Nodup := by
    rw [List.map_append, List.map_map]
    rw [List.nodup_append]
    refine ⟨?_, List.nodup_singleton _, ?_⟩
    · have : (Prod.fst ∘ fun c : StrategyRow => ((some c.strategy_id : Option Nat), c.name))
        = (fun c : StrategyRow => (some c.strategy_id : Option Nat)) := rfl
      rw [this]
      have h2 : (fun c : StrategyRow => (some c.strategy_id : Option Nat))
          = (some ∘ fun c : StrategyRow => c.strategy_id) := rfl
      rw [h2, ← List.map_map]
      exact hnd.map (fun a b hab => Option.some.inj hab)
    · intro x hx hx2
      rcases List.mem_map.mp hx with ⟨c, _, hc⟩
      rw [List.map_singleton, List.mem_singleton] at hx2
      rw [hx2] at hc
      exact Option.noConfusion hc
  unfold compute_distribution
  dsimp only
  rw [h1, h2, h3, List.map_map]
  have hcongr : ∀ kv ∈ ((s.strategy_categories.map (fun c => (some c.strategy_id, c.name))) ++
      [((none : Option Nat), "(미할당)")]),
      ((fun kv => ((((s.strategy_categories.map (fun c => (some c.strategy_id, c.name))) ++
          [((none : Option Nat), "(미할당)")]).lookup kv.1).getD "(미할당)",
          kv.2.1, kv.2.2.1, kv.2.2.2)) ∘
        (fun kv => (kv.1, ((proposalStrategyKeys s sid month).count kv.1,
            (approvalStrategyKeys s sid month).count kv.1,
            (activeStrategyKeys s sid).count kv.1)))) kv
        = (kv.2, (proposalStrategyKeys s sid month).count kv.1,
            (approvalStrategyKeys s sid month).count kv.1,
            (activeStrategyKeys s sid).count kv.1) := by
    intro kv hkv
    simp only [Function.comp]
    rw [lookup_self_of_nodup _ hkeys kv hkv]
    rfl
  rw [List.map_congr_left hcongr]
  rw [List.map_append, List.map_map]
  rfl

/-- C9: `compute_distribution` emits exactly one `(name, proposals,
approvals, active)` entry per StrategyCategory row present in the store
plus the `"(미할당)"` sentinel entry, zero triples included for categories
without matching rows, sorted ascending by category name.  The two
hypotheses are the store's primary-key and referential-integrity
invariants (outside them the source dict indexing would raise). -/
theorem compute_distribution_spec :
    ∀ (s : Store) (sid : Nat) (month : String),
    ((s.strategy_categories.map (fun c => c.strategy_id)).Nodup) →
    (∀ p ∈ s.projects, p.snapshot_id = sid →
      p.strategy_id = none ∨ ∃ c ∈ s.strategy_categories, p.strategy_id = some c.strategy_id) →
    ((compute_distribution s sid month).length = s.strategy_categories.length + 1
    ∧ (∀ c ∈ s.strategy_categories,
        (c.name, (proposalStrategyKeys s sid month).count (some c.strategy_id),
         (approvalStrategyKeys s sid month).count (some c.strategy_id),
         (activeStrategyKeys s sid).count (some c.strategy_id)) ∈ compute_distribution s sid month)
    ∧ ("(미할당)", (proposalStrategyKeys s sid month).count none,
        (approvalStrategyKeys s sid month).count none,
        (activeStrategyKeys s sid).count none) ∈ compute_distribution s sid month
    ∧ (compute_distribution s sid month).Pairwise (fun x y => strLe x.1 y.1 = true)) := by
  intro s sid month hnd hint
  rw [compute_distribution_form s sid month hnd]
  refine ⟨?_, ?_, ?_, ?_⟩
  · rw [length_sortLe, List.length_append, List.length_map, List.length_singleton]
  · intro c hc
    rw [mem_sortLe]
    exact List.mem_append_left _ (List.mem_map.mpr ⟨c, hc, rfl⟩)
  · rw [mem_sortLe]
    exact List.mem_append_right _ (List.mem_singleton_self _)
  · exact pairwise_sortLe (fun a b => strLe a.1 b.1)
      (fun (a b c : String × Nat × Nat × Nat) hab hbc => strLe_trans a.1 b.1 c.1 hab hbc)
      (fun (a b : String × Nat × Nat × Nat) => strLe_total a.1 b.1) _

/-- C9 witness: a store with one category and no data yields the sentinel
entry and a zero row for the category, two entries in total. -/
theorem compute_distribution_spec_witness :
    (compute_distribution storeOneStrategy 1 "2025-01").length
      = storeOneStrategy.strategy_categories.length + 1 :=
  (compute_distribution_spec storeOneStrategy 1 "2025-01" (by decide)
    (by intro p hp; simp [storeOneStrategy] at hp)).1
